import Mathlib

/-!
Verification of the DualAgent repository (src/agent_core.py, src/agent_social.py)
against its natural-language specification.

Text is modelled as `List Char` (`Str`).  The retry loop of `agent_core.main`
(lines 241-331) is embedded as a step function `attemptStep` (one iteration
of the `for attempt in range(1, MAX_RUN_RETRIES + 1)` body) and a driver
`runFrom` that folds it over the attempt budget; observable effects (file
writes via `write_text`, e-mails via `send_mail`, `time.sleep`, `print`)
are collected in an event trace.  The outcome of one attempt of the
third-party agent call (`asyncio.wait_for(run_once(), ...)`, lines 245),
whether the SMTP send raises, and whether `os.path`/`try_export_auth_state`
succeed are environment inputs, supplied per attempt.  Python's `re` module
used by `agent_social.extract_signals` is likewise third-party and is
supplied as an oracle; the repository-owned logic around it (counting,
dedup, truncation, template building) is embedded exactly.
-/

/-- Text is a list of characters, as in the Python sources where every
value involved is `str`. -/
abbrev Str : Type := List Char

/-- Coercion from a Lean string literal to the `List Char` text model. -/
def S (s : String) : Str := s.data

/-- Decimal rendering of a natural number, as Python `str`/f-string
interpolation renders the non-negative ints appearing in the sources. -/
def N (n : Nat) : Str := (Nat.repr n).data

/-- Rendering of a Python `bool` in an f-string: `True` / `False`. -/
def pyBool (b : Bool) : Str := if b then S "True" else S "False"

/-- Rendering of a Python `bool` by `json.dumps`: `true` / `false`. -/
def jsonBool (b : Bool) : Str := if b then S "true" else S "false"

/-- Left brace character, U+007B. -/
def lbChar : Char := Char.ofNat 123

/-- Right brace character, U+007D. -/
def rbChar : Char := Char.ofNat 125

/-- ASCII lowercasing, modelling Python `str.lower()` on the ASCII log
text the sources compare against. -/
def pyLower (s : Str) : Str := s.map Char.toLower

/-- Whitespace test of Python `str.strip()` / `str.isspace()` (ASCII
whitespace; the artefacts involved are ASCII/UTF-8 text). -/
def isPyWs (c : Char) : Bool :=
  c = ' ' || c = '\t' || c = '\n' || c = '\r' || c = Char.ofNat 11 || c = Char.ofNat 12

/-- Python `str.strip()`: remove leading and trailing whitespace. -/
def pyStrip (s : Str) : Str :=
  ((s.dropWhile isPyWs).reverse.dropWhile isPyWs).reverse

/-- Worker for `pySplitlines`: accumulate the current line (reversed) and
split at `\r\n`, `\n` or `\r`; a terminator at the very end does not open
a final empty line, matching Python `str.splitlines()`. -/
def pySplitlinesGo : Str → Str → List Str
  | acc, [] => [acc.reverse]
  | acc, '\r' :: '\n' :: rest =>
      acc.reverse :: (if rest = [] then [] else pySplitlinesGo [] rest)
  | acc, '\n' :: rest =>
      acc.reverse :: (if rest = [] then [] else pySplitlinesGo [] rest)
  | acc, '\r' :: rest =>
      acc.reverse :: (if rest = [] then [] else pySplitlinesGo [] rest)
  | acc, c :: rest => pySplitlinesGo (c :: acc) rest

/-- Python `str.splitlines()` (restricted to the `\n`/`\r` terminators;
the empty string yields the empty list). -/
def pySplitlines (s : Str) : List Str :=
  if s = [] then [] else pySplitlinesGo [] s

/-- Python `lst[-n:]`: the last `n` elements (the whole list when it is
shorter). -/
def lastN (n : Nat) (l : List Str) : List Str := l.drop (l.length - n)

/-- Substring test, modelling the Python `x in s` operator on `str`. -/
def containsSub (needle hay : Str) : Bool := decide (needle <:+: hay)

/-- Fuel-indexed worker for `replaceAll`.  Scans left to right; where the
pattern `v` matches, emits `w` and jumps over the match, otherwise copies
one character — exactly Python `str.replace(v, w)` for non-empty `v`.
The fuel only makes the recursion structural: it is consumed one unit per
step while the text shrinks by at least one character per step, so with
`fuel = s.length` the `0` case is only reached with `s = []`. -/
def replaceAllF (v w : Str) : Nat → Str → Str
  | 0, s => s
  | fuel + 1, s =>
      if v ≠ [] ∧ v.isPrefixOf s then
        w ++ replaceAllF v w fuel (s.drop v.length)
      else
        match s with
        | [] => []
        | c :: rest => c :: replaceAllF v w fuel rest

/-- Python `s.replace(v, w)` for the non-empty patterns `redact_secrets`
feeds it (`agent_core.py` guards the call with `if v:`). -/
def replaceAll (v w s : Str) : Str := replaceAllF v w s.length s

/-- Replacement text `"***"` used by `redact_secrets`. -/
def stars : Str := S "***"

/-- One iteration of the loop body of `redact_secrets`
(src/agent_core.py lines 52-55): `v = os.getenv(k); if v: text =
text.replace(v, "***")`.  `none` is an unset variable and `[]` an empty
one; both leave the text unchanged, as Python falsiness does. -/
def redactStep (text : Str) (v : Option Str) : Str :=
  match v with
  | none => text
  | some s => if s = [] then text else replaceAll s stars text

/-- The secret values of the five keys `TARGET_USER, TARGET_PW,
GROQ_API_KEY, STEEL_API_KEY, EMAIL_APP_PASSWORD`, in the order
`redact_secrets` iterates them (an entry is `none` when unset). -/
abbrev Secrets : Type := List (Option Str)

/-- Embedding of `redact_secrets` (src/agent_core.py lines 50-56). -/
def redact_secrets (env : Secrets) (text : Str) : Str :=
  env.foldl redactStep text

/-- Telemetry record produced by `analyze_history`
(src/agent_core.py lines 62-98): flat counters plus a login flag. -/
structure Stats where
  clicks : Nat
  types : Nat
  navigates : Nat
  waits : Nat
  errors : Nat
  login_success_claimed : Bool
deriving DecidableEq

/-- Retry-loop configuration (src/agent_core.py lines 20-22):
`RUN_TIMEOUT_SECONDS`, `MAX_RUN_RETRIES`, `RETRY_BACKOFF_SECONDS`. -/
structure Config where
  runTimeoutSeconds : Nat
  maxRunRetries : Nat
  retryBackoffSeconds : Nat
deriving DecidableEq

/-- Observable effect of the embedded scripts: a `write_text`/`open+write`
file write, a successfully sent e-mail, a `print` to standard output, or a
`time.sleep` of the given number of seconds. -/
inductive Event where
  | fileWrite (path : Str) (text : Str)
  | mailSent (subject : Str) (body : Str)
  | printed (line : Str)
  | slept (seconds : Nat)
deriving DecidableEq

/-- Environment-supplied outcome of one attempt of
`asyncio.wait_for(run_once(), timeout=RUN_TIMEOUT_SECONDS)`
(src/agent_core.py line 245): either a history, summarised by its
telemetry `stats` and `final_result()` text, together with whether
`send_mail` raises on this attempt (`mailErr = some e` carries `str(e)`),
whether `has_auth_state()` holds, and what `try_export_auth_state` would
return; or an `asyncio.TimeoutError`; or another exception with message
`str(e) = msg`. -/
inductive AttemptOutcome where
  | ok (stats : Stats) (result : Str) (mailErr : Option Str)
      (hasAuth : Bool) (exportOk : Bool)
  | timeout
  | exc (msg : Str)
deriving DecidableEq

/-- The `last_err` variable of `main` (src/agent_core.py line 242):
initially `None`, then the synthetic no-op `RuntimeError`, the timeout
`RuntimeError`, or a caught exception. -/
inductive LastErr where
  | noneE
  | noop
  | timeoutE (timeoutSeconds : Nat) (attempt : Nat)
  | excE (msg : Str)
deriving DecidableEq

/-- Python `str(last_err)`: `str(None)` is `"None"`; the two synthetic
`RuntimeError`s stringify to their message (lines 295 and 299); a caught
exception stringifies to `msg` (line 303 takes `msg = str(e)`). -/
def lastErrStr (e : LastErr) : Str :=
  match e with
  | .noneE => S "None"
  | .noop => S "No actions produced (0 clicks/types). Retrying."
  | .timeoutE t a => S "Timeout after " ++ N t ++ S "s (attempt " ++ N a ++ S ")"
  | .excE m => m

/-- Classification of a caught exception message against the fixed
transient-disconnect substring list (src/agent_core.py lines 308-317):
`any(x in msg.lower() for x in [...])`. -/
def infraFlake (msg : Str) : Bool :=
  [S "browser not connected",
   S "websocket connection closed",
   S "session is corrupted",
   S "cdp",
   S "disconnected"].any (fun x => containsSub x (pyLower msg))

/-- Two hexadecimal digits (lowercase), for the `\u00XX` escapes of
`json.dumps`. -/
def hex2 (n : Nat) : Str :=
  let d : Nat → Char := fun k => if k < 10 then Char.ofNat (48 + k) else Char.ofNat (87 + k)
  [d (n / 16), d (n % 16)]

/-- Escaping of one character inside a JSON string by `json.dumps` with
`ensure_ascii=False`: quote, backslash and control characters are escaped,
everything else is kept verbatim. -/
def jsonEscapeChar (c : Char) : Str :=
  if c = '"' then S "\\\""
  else if c = '\\' then S "\\\\"
  else if c = '\n' then S "\\n"
  else if c = '\r' then S "\\r"
  else if c = '\t' then S "\\t"
  else if c = Char.ofNat 8 then S "\\b"
  else if c = Char.ofNat 12 then S "\\f"
  else if c.toNat < 32 then S "\\u00" ++ hex2 c.toNat
  else [c]

/-- JSON string literal produced by `json.dumps` for a Python `str`. -/
def jsonString (s : Str) : Str :=
  '"' :: (s.foldr (fun c acc => jsonEscapeChar c ++ acc) []) ++ ['"']

/-- Body (all but the final closing brace) of
`json.dumps(summary, ensure_ascii=False, indent=2)` for the summary dict
of src/agent_core.py lines 256-261; key order is the insertion order of
the dict literals (`attempt, stats, result, has_auth_state_before`, and
inside `stats` the order of lines 63-70).  `result` is the already
redacted result text. -/
def summaryJsonBody (attempt : Nat) (stats : Stats) (result : Str) (hasAuth : Bool) : Str :=
  [lbChar]
  ++ S "\n  \"attempt\": " ++ N attempt
  ++ S ",\n  \"stats\": " ++ [lbChar]
  ++ S "\n    \"clicks\": " ++ N stats.clicks
  ++ S ",\n    \"types\": " ++ N stats.types
  ++ S ",\n    \"navigates\": " ++ N stats.navigates
  ++ S ",\n    \"waits\": " ++ N stats.waits
  ++ S ",\n    \"errors\": " ++ N stats.errors
  ++ S ",\n    \"login_success_claimed\": " ++ jsonBool stats.login_success_claimed
  ++ S "\n  " ++ [rbChar]
  ++ S ",\n  \"result\": " ++ jsonString result
  ++ S ",\n  \"has_auth_state_before\": " ++ jsonBool hasAuth
  ++ S "\n"

/-- The text written to `run_summary.txt` (src/agent_core.py line 262). -/
def summaryJson (attempt : Nat) (stats : Stats) (result : Str) (hasAuth : Bool) : Str :=
  summaryJsonBody attempt stats result hasAuth ++ [rbChar]

/-- E-mail subject of a completed attempt (src/agent_core.py line 270). -/
def mailSubject (stats : Stats) (exported : Bool) : Str :=
  S "Worker: clicks=" ++ N stats.clicks
  ++ S " types=" ++ N stats.types
  ++ S " err=" ++ N stats.errors
  ++ S " export_auth=" ++ pyBool exported

/-- E-mail body of a completed attempt (src/agent_core.py lines 271-283);
the trailing newline is part of the f-string.  `result` is the raw result
text: line 282 redacts it only when it is non-empty, else substitutes the
placeholder. -/
def mailBody (secrets : Secrets) (stats : Stats) (hasAuth exported : Bool) (result : Str) : Str :=
  S "TELEMETRIE:\n- Navigates: " ++ N stats.navigates
  ++ S "\n- Clicks: " ++ N stats.clicks
  ++ S "\n- Types: " ++ N stats.types
  ++ S "\n- Waits: " ++ N stats.waits
  ++ S "\n- Errors: " ++ N stats.errors
  ++ S "\n- Login claimed: " ++ pyBool stats.login_success_claimed
  ++ S "\n- Auth state existed before: " ++ pyBool hasAuth
  ++ S "\n- Export auth attempted: " ++ pyBool exported
  ++ S "\n\nERGEBNIS:\n"
  ++ (if result ≠ [] then redact_secrets secrets result else S "Kein Ergebnistext.")
  ++ S "\n"

/-- Verdict of one iteration of the retry loop body: `done` is the
`return` of line 292, `retry` is falling through to the next attempt with
`last_err` set, `breakOut` is the `break` of line 321. -/
inductive StepVerdict where
  | done
  | retry (lastErr : LastErr)
  | breakOut (lastErr : LastErr)
deriving DecidableEq

/-- Test used to state exhaustion: the verdict continues the loop. -/
def StepVerdict.isRetry : StepVerdict → Bool
  | .retry _ => true
  | _ => false

/-- One iteration of the retry loop body of `main`
(src/agent_core.py lines 244-321), given the environment outcome of this
attempt.  Returns the emitted events and the verdict.

The `ok` branch (lines 245-296): write `run_summary.txt` with the JSON
summary (result redacted), compute `exported` (line 266: the export is
attempted only when a login was claimed or at least two type actions were
seen), send the telemetry e-mail — a mail failure is swallowed and written
to `mail_error.txt` (lines 284-288) — then classify: real actions or a
non-blank result end the run (lines 291-292), otherwise the attempt is a
no-op soft failure and the loop sleeps `RETRY_BACKOFF_SECONDS * attempt`
and retries (lines 295-296).

The timeout branch (lines 298-301) writes `timeout.txt`, sleeps the same
backoff and retries.  The generic exception branch (lines 302-321) writes
`error_attempt_{attempt}.txt` with the redacted message, and only when
the message matches the transient-disconnect list and attempts remain
does it sleep and retry; otherwise it breaks out of the loop. -/
def attemptStep (cfg : Config) (secrets : Secrets) (attempt : Nat)
    (out : AttemptOutcome) : List Event × StepVerdict :=
  match out with
  | .ok stats result mailErr hasAuth exportOk =>
      let summary := summaryJson attempt stats (redact_secrets secrets result) hasAuth
      let exported := (stats.login_success_claimed || stats.types ≥ 2) && exportOk
      let mailEv :=
        match mailErr with
        | none => [Event.mailSent (mailSubject stats exported)
                     (mailBody secrets stats hasAuth exported result)]
        | some e => [Event.fileWrite (S "mail_error.txt") e]
      let evs := Event.fileWrite (S "run_summary.txt") summary :: mailEv
      if stats.clicks > 0 ∨ stats.types > 0 ∨ pyStrip result ≠ [] then
        (evs, .done)
      else
        (evs ++ [Event.slept (cfg.retryBackoffSeconds * attempt)], .retry .noop)
  | .timeout =>
      let e := LastErr.timeoutE cfg.runTimeoutSeconds attempt
      ([Event.fileWrite (S "timeout.txt") (lastErrStr e),
        Event.slept (cfg.retryBackoffSeconds * attempt)], .retry e)
  | .exc msg =>
      let evs := [Event.fileWrite (S "error_attempt_" ++ N attempt ++ S ".txt")
                    (redact_secrets secrets msg)]
      if attempt < cfg.maxRunRetries ∧ infraFlake msg = true then
        (evs ++ [Event.slept (cfg.retryBackoffSeconds * attempt)], .retry (.excE msg))
      else
        (evs, .breakOut (.excE msg))

/-- The hard-failure tail of `main` (src/agent_core.py lines 323-331):
a best-effort `Worker FAILED` e-mail whose body carries the redacted
`str(last_err)`; a failure of this send is swallowed with no observable
effect (`except: pass`), then `raise SystemExit(1)`. -/
def hardFailEvents (cfg : Config) (secrets : Secrets) (finalMailOk : Bool)
    (lastErr : LastErr) : List Event :=
  if finalMailOk then
    [Event.mailSent (S "Worker FAILED")
      (S "Worker failed after " ++ N cfg.maxRunRetries
        ++ S " attempts.\nLast error: " ++ redact_secrets secrets (lastErrStr lastErr))]
  else []

/-- Termination of `main`: the plain `return` of line 292, or the
`raise SystemExit(1)` of line 331.  `raised` (re-raising a recorded
error) is a behaviour `main` could have had but does not; it is needed to
state the spec sentence that the last error is raised. -/
inductive RunOutcome where
  | success
  | systemExit (code : Nat)
  | raised (err : LastErr)
deriving DecidableEq

/-- Driver of the retry loop: `remaining` attempts are left, the next one
has 1-based index `attempt` (so `main` is `remaining = MAX_RUN_RETRIES`,
`attempt = 1`, mirroring `for attempt in range(1, MAX_RUN_RETRIES + 1)`).
When the range is exhausted or the body breaks, control reaches the
hard-failure tail. -/
def runFrom (cfg : Config) (secrets : Secrets) (env : Nat → AttemptOutcome)
    (finalMailOk : Bool) : Nat → Nat → LastErr → List Event × RunOutcome
  | 0, _, lastErr => (hardFailEvents cfg secrets finalMailOk lastErr, .systemExit 1)
  | remaining + 1, attempt, _ =>
      let step := attemptStep cfg secrets attempt (env attempt)
      match step.2 with
      | .done => (step.1, .success)
      | .retry e =>
          let rest := runFrom cfg secrets env finalMailOk remaining (attempt + 1) e
          (step.1 ++ rest.1, rest.2)
      | .breakOut e =>
          (step.1 ++ hardFailEvents cfg secrets finalMailOk e, .systemExit 1)

/-- Embedding of `main` (src/agent_core.py lines 241-331): run the retry
loop from attempt 1 with `last_err = None`. -/
def pyMain (cfg : Config) (secrets : Secrets) (env : Nat → AttemptOutcome)
    (finalMailOk : Bool) : List Event × RunOutcome :=
  runFrom cfg secrets env finalMailOk cfg.maxRunRetries 1 .noneE

/-- Embedding of `read_file` (src/agent_social.py lines 8-14).  The file
system is an environment map from path to contents; a missing file is the
`FileNotFoundError` branch and yields the empty string, otherwise the
contents are truncated to `max_chars` (`data[:max_chars]`, default
120000). -/
def read_file (fs : Str → Option Str) (path : Str) (max_chars : Nat) : Str :=
  match fs path with
  | none => []
  | some data => data.take max_chars

/-- Oracle for Python's `re` module (third-party to the repository):
`findallCount pat ic text` is `len(re.findall(pat, text))` (with
`re.IGNORECASE` when `ic`), and `search pat ic text` is
`m.group(0)` of `re.search(pat, text)` when it matches, else `none`. -/
structure RegexOracle where
  findallCount : Str → Bool → Str → Nat
  search : Str → Bool → Str → Option Str

/-- Signals dict built by `extract_signals`
(src/agent_social.py lines 23-32). -/
structure Signals where
  clicks : Nat
  types : Nat
  waits : Nat
  navigates : Nat
  errors : Nat
  login_success : Bool
  disconnect : Bool
  key_errors : List Str
deriving DecidableEq

/-- Keep-first deduplication, modelling
`list(dict.fromkeys(lst))` (src/agent_social.py line 70): a later
duplicate of an earlier entry is dropped, the first occurrence order is
kept. -/
def dedupKeepFirst (l : List Str) : List Str :=
  l.foldl (fun acc x => if x ∈ acc then acc else acc ++ [x]) []

/-- Embedding of `extract_signals` (src/agent_social.py lines 16-71).
An empty worker log returns early with the single fixed key error
(lines 34-36).  Otherwise the counters come from `re.findall`, the two
flags from `re.search` truthiness, the disconnect message is appended
when the disconnect pattern fires (line 55), the five concrete patterns
append their `group(0)` when they match (lines 58-67), and the list is
keep-first deduplicated and truncated to six entries (line 70). -/
def extract_signals (rx : RegexOracle) (worker_log : Str) : Signals :=
  if worker_log = [] then
    { clicks := 0, types := 0, waits := 0, navigates := 0, errors := 0,
      login_success := false, disconnect := false,
      key_errors := [S "Kein worker log gefunden (worker-report/run.log fehlt)."] }
  else
    let clicks := rx.findallCount (S "\\bclick\\b") true worker_log
    let types := rx.findallCount (S "\\btype\\b") true worker_log
    let waits := rx.findallCount (S "\\bwait\\b") true worker_log
    let navigates := rx.findallCount (S "\\bnavigate\\b") true worker_log
    let errors := rx.findallCount (S "\\b(ERROR|Exception|Traceback)\\b") false worker_log
    let login_success :=
      (rx.search (S "login was successful|logged in successfully|ich habe mich eingeloggt|logout")
        true worker_log).isSome
    let disconnect :=
      (rx.search (S "browser not connected|websocket connection closed|Browser Disconnected|session is corrupted|target_id=None")
        true worker_log).isSome
    let ke0 :=
      if disconnect then
        [S "Browser/Steel Session instabil (WebSocket closed / browser not connected / session corrupted)."]
      else []
    let pats :=
      [S "Cannot navigate\\s*-\\s*browser not connected",
       S "websocket connection closed",
       S "session is corrupted.*target_id=None",
       S "Cannot execute click.*session is corrupted",
       S "CDP .* failed"]
    let ke := ke0 ++ pats.filterMap (fun p => rx.search p true worker_log)
    { clicks := clicks, types := types, waits := waits, navigates := navigates,
      errors := errors, login_success := login_success, disconnect := disconnect,
      key_errors := (dedupKeepFirst ke).take 6 }

/-- Embedding of `build_advice_no_llm` (src/agent_social.py lines
146-180).  The wall-clock timestamp `datetime.utcnow().strftime("%Y-%m-%d
%H:%M UTC")` read on line 147 is passed in explicitly as `now`. -/
def build_advice_no_llm (now : Str) (worker_log : Str) (signals : Signals) : Str :=
  let lines : List Str :=
    [S "# Advice (auto) — " ++ now,
     S "",
     S "## Kurzdiagnose",
     S "- Login erkannt: **" ++ pyBool signals.login_success ++ S "**",
     S "- Session/Disconnect erkannt: **" ++ pyBool signals.disconnect ++ S "**",
     S "- Aktionen (heuristisch): clicks≈" ++ N signals.clicks
       ++ S ", types≈" ++ N signals.types
       ++ S ", navigates≈" ++ N signals.navigates
       ++ S ", waits≈" ++ N signals.waits,
     S "",
     S "## Wahrscheinlichste Ursache",
     S "- **Steel/Browser Session wird nach erfolgreichem Login instabil** (WebSocket/Target detach / session corrupted).",
     S "",
     S "## Minimale Fixes (3–5)",
     S "1. **Nach Login: Tab/Target stabilisieren** — nach dem Submit einmal `wait 2–5s` und dann *keinen zweiten sofortigen Click* auf denselben Link; erst DOM neu lesen.",
     S "2. **Retry-Guard**: Wenn `browser not connected` oder `session corrupted` auftaucht → Agent sauber beenden (statt Loop) und nächsten Run starten.",
     S "3. **Einmalige Navigation**: Verhindere doppelte `navigate`-Calls hintereinander (führt oft zu Target detach).",
     S "4. **Keep-alive / kürzere Runs**: Worker Timeout eher 180–240s, und nach Erfolg früh abbrechen.",
     S "5. Falls möglich: **Steel Session pro Phase** (Login-Phase, dann neue Session fürs Scraping) — reduziert Corruption nach Auth.",
     S "",
     S "## Key Errors"]
  let keLines :=
    if signals.key_errors ≠ [] then signals.key_errors.map (fun e => S "- " ++ e)
    else [S "- (keine spezifischen Error-Strings erkannt)"]
  let tail :=
    if worker_log ≠ [] then List.intercalate (S "\n") (lastN 80 (pySplitlines worker_log))
    else S "(no log)"
  List.intercalate (S "\n")
    (lines ++ keLines
      ++ [S "", S "## Log-Auszug (letzte ~80 Zeilen)", S "```", tail, S "```"])

/-- Embedding of `build_post_no_llm` (src/agent_social.py lines 182-206);
`now` is the `datetime.utcnow()` timestamp of line 183. -/
def build_post_no_llm (now : Str) (worker_log : Str) (signals : Signals) : Str :=
  let key_err := signals.key_errors.take 3
  let tail :=
    if worker_log ≠ [] then List.intercalate (S "\n") (lastN 40 (pySplitlines worker_log))
    else S "(no log)"
  List.intercalate (S "\n")
    ([S "# Mersenne Worker: Login ok, then Steel session corruption (" ++ now ++ S ")",
      S "",
      S "We run a dual-agent GitHub Actions setup:",
      S "- Worker: browser-use + Steel (remote browser) + Groq (text-only) to login and scan latest posts",
      S "- Social: generates advice + post drafts",
      S "",
      S "**Observed:** login seems successful = **" ++ pyBool signals.login_success
        ++ S "**, then the browser session becomes unstable = **" ++ pyBool signals.disconnect ++ S "**.",
      S "",
      S "Key errors we see:"]
     ++ key_err.map (fun e => S "- `" ++ e ++ S "`")
     ++ [S "",
         S "Question:",
         S "- Best practices to avoid **target detach / session corrupted** after login in Steel/browser-use?",
         S "- Should we re-create the browser/session after login (two-phase approach)?",
         S "",
         S "Log tail:",
         S "```",
         tail,
         S "```"])

/-- Embedding of `llm_summarize` (src/agent_social.py lines 73-82) in the
configuration the spec fixes: `GROQ_API_KEY` unset, so `USE_GROQ` is
false (line 6) and the function returns the two no-LLM templates
(lines 79-82).  The LLM branch (lines 84-144) is dead code in this
configuration and is not modelled.  `skill_md` is unused on this path, as
in the source; `now` is the wall-clock timestamp the two builders read. -/
def llm_summarize (now : Str) (worker_log : Str) (_skill_md : Str)
    (signals : Signals) : Str × Str :=
  (build_advice_no_llm now worker_log signals, build_post_no_llm now worker_log signals)

/-- Contents written for `advice.md` / `social_post.md` by
`agent_social.main` (src/agent_social.py lines 220-224):
`text.strip() + "\n"`. -/
def socialFileText (text : Str) : Str := pyStrip text ++ ['\n']

/-- Embedding of `agent_social.main` (src/agent_social.py lines 208-226)
in the no-LLM configuration: read the worker log (default truncation
120000) and the skill file (50000), extract signals, build the two
templates, write both files newline-terminated and print the final
status line. -/
def social_main (now : Str) (rx : RegexOracle) (fs : Str → Option Str)
    (worker_log_path skill_path : Str) : List Event :=
  let worker_log := read_file fs worker_log_path 120000
  let skill_md := read_file fs skill_path 50000
  let signals := extract_signals rx worker_log
  let pair := llm_summarize now worker_log skill_md signals
  [Event.fileWrite (S "advice.md") (socialFileText pair.1),
   Event.fileWrite (S "social_post.md") (socialFileText pair.2),
   Event.printed (S "Wrote advice.md and social_post.md")]

/-- Concrete configuration with the default env values
`RUN_TIMEOUT_SECONDS=240, MAX_RUN_RETRIES=3, RETRY_BACKOFF_SECONDS=4`. -/
def cfgEx : Config := ⟨240, 3, 4⟩

/-- Concrete configuration with a single attempt. -/
def cfg1 : Config := ⟨240, 1, 4⟩

/-- Environment with none of the five secret keys set. -/
def noSecrets : Secrets := [none, none, none, none, none]

/-- All-zero telemetry record. -/
def zeroStats : Stats := ⟨0, 0, 0, 0, 0, false⟩

/-- Telemetry record of a productive attempt. -/
def goodStats : Stats := ⟨2, 2, 1, 0, 0, true⟩

/-- Empty signals record. -/
def sigEmpty : Signals := ⟨0, 0, 0, 0, 0, false, false, []⟩

/-- Environment whose first attempt raises a non-transient exception and
whose later attempts would succeed with actions and a result. -/
def envBoomThenGood : Nat → AttemptOutcome :=
  fun k => if k = 1 then .exc (S "boom") else .ok goodStats (S "found") none false false

/-- Environment where every attempt succeeds with actions and a result. -/
def envGood : Nat → AttemptOutcome := fun _ => .ok goodStats (S "found") none false false

/-- Environment where every attempt completes with zero actions and an
empty result. -/
def envNoop : Nat → AttemptOutcome := fun _ => .ok zeroStats (S "") none false false

/-- Environment where every attempt completes with a result but the
telemetry e-mail send raises. -/
def envMailFail : Nat → AttemptOutcome :=
  fun _ => .ok zeroStats (S "x") (some (S "smtp down")) false false

/-- Regex oracle that never matches anything. -/
def rxNone : RegexOracle := ⟨fun _ _ _ => 0, fun _ _ _ => none⟩

/-- The empty list is an infix of every list. -/
theorem nilInfixOf (l : Str) : [] <:+: l := ⟨[], l, rfl⟩

/-- A prefix is an infix. -/
theorem infixOfPre {u l : Str} (h : u <+: l) : u <:+: l := by
  obtain ⟨t, ht⟩ := h
  exact ⟨[], t, ht⟩

/-- A suffix is an infix. -/
theorem infixOfSuf {u l : Str} (h : u <:+ l) : u <:+: l := by
  obtain ⟨s, hs⟩ := h
  exact ⟨s, [], by simp [hs]⟩

/-- Only the empty list is an infix of the empty list. -/
theorem infixNilEq {u : Str} (h : u <:+: []) : u = [] := by
  obtain ⟨s, t, hst⟩ := h
  have := List.append_eq_nil.mp hst
  exact (List.append_eq_nil.mp this.1).2

/-- Folding the keep-first dedup step preserves `Nodup` of the
accumulator, hence `dedupKeepFirst` always yields a duplicate-free
list. -/
theorem dedupFold_nodup (l : List Str) :
    ∀ acc : List Str, acc.Nodup →
      (l.foldl (fun acc x => if x ∈ acc then acc else acc ++ [x]) acc).Nodup := by
  induction l with
  | nil => intro acc h; simpa using h
  | cons x xs ih =>
      intro acc h
      simp only [List.foldl_cons]
      by_cases hx : x ∈ acc
      · rw [if_pos hx]; exact ih acc h
      · rw [if_neg hx]
        refine ih (acc ++ [x]) ?_
        rw [List.nodup_append]
        refine ⟨h, List.nodup_singleton x, ?_⟩
        intro a ha hb
        rw [List.mem_singleton] at hb
        exact hx (hb ▸ ha)

/-- The result of `dedupKeepFirst` has no duplicates. -/
theorem dedupKeepFirst_nodup (l : List Str) : (dedupKeepFirst l).Nodup :=
  dedupFold_nodup l [] List.nodup_nil

/-- C8: `read_file` returns at most `max_chars` characters, and returns
the empty string — instead of raising — when the file does not exist
(the `FileNotFoundError` branch of src/agent_social.py lines 13-14). -/
theorem read_file_truncated_and_total (fs : Str → Option Str) (path : Str) (max_chars : Nat) :
    (read_file fs path max_chars).length ≤ max_chars ∧
    (fs path = none → read_file fs path max_chars = []) := by
  cases h : fs path with
  | none => simp [read_file, h]
  | some d =>
      refine ⟨?_, ?_⟩
      · simp [read_file, h, List.length_take_le]
      · intro hc
        exact Option.noConfusion hc

/-- Witness for C8 at a concrete input: an absent file yields the empty
string, whose length is within the bound. -/
theorem read_file_truncated_and_total_witness :
    (read_file (fun _ => none) (S "worker-report/run.log") 5).length ≤ 5 ∧
    read_file (fun _ => none) (S "worker-report/run.log") 5 = [] :=
  ⟨(read_file_truncated_and_total (fun _ => none) (S "worker-report/run.log") 5).1,
   (read_file_truncated_and_total (fun _ => none) (S "worker-report/run.log") 5).2 rfl⟩

/-- C9: for every regex oracle and worker log, the `key_errors` list of
`extract_signals` has no duplicates and at most 6 entries (the keep-first
dedup and `[:6]` truncation of src/agent_social.py line 70; the empty-log
early return yields a singleton). -/
theorem key_errors_nodup_and_bounded (rx : RegexOracle) (worker_log : Str) :
    (extract_signals rx worker_log).key_errors.Nodup ∧
    (extract_signals rx worker_log).key_errors.length ≤ 6 := by
  by_cases h : worker_log = []
  · constructor
    · simp [extract_signals, h]
    · simp [extract_signals, h]
  · constructor
    · simp only [extract_signals, if_neg h]
      exact (dedupKeepFirst_nodup _).sublist (List.take_sublist _ _)
    · simp only [extract_signals, if_neg h]
      exact List.length_take_le _ _

/-- C4 counterexample: with the LLM disabled, two runs of
`llm_summarize` on the same worker log, skill file and signals, but at
different wall-clock minutes, produce different advice text — the
timestamp is interpolated into the advice header
(src/agent_social.py lines 147-149).  The claim that two runs on the same
input always produce the same advice text is therefore false of the
code. -/
theorem llm_summarize_time_dependent :
    (llm_summarize (S "2025-01-01 00:00 UTC") (S "") (S "") sigEmpty).1 ≠
    (llm_summarize (S "2025-01-01 00:01 UTC") (S "") (S "") sigEmpty).1 := by
  decide

/-- C4 amended: with the LLM disabled, `llm_summarize` is deterministic
given the clock reading — two runs on the same worker log, skill file and
signals produce the same advice and post text whenever both runs format
the same UTC timestamp. -/
theorem llm_summarize_deterministic (now1 now2 worker_log skill_md : Str)
    (sg : Signals) (h : now1 = now2) :
    llm_summarize now1 worker_log skill_md sg = llm_summarize now2 worker_log skill_md sg := by
  rw [h]

/-- Witness for the amended C4 at a concrete input. -/
theorem llm_summarize_deterministic_witness :
    llm_summarize (S "2025-01-01 00:00 UTC") (S "log line") (S "") sigEmpty =
    llm_summarize (S "2025-01-01 00:00 UTC") (S "log line") (S "") sigEmpty :=
  llm_summarize_deterministic _ _ _ _ sigEmpty rfl

/-- Unfolding of one loop iteration whose body classifies as `done`:
the loop returns success with this iteration's events. -/
theorem runFrom_step_done (cfg : Config) (secrets : Secrets) (env : Nat → AttemptOutcome)
    (fm : Bool) (remaining attempt : Nat) (le : LastErr)
    (h : (attemptStep cfg secrets attempt (env attempt)).2 = .done) :
    runFrom cfg secrets env fm (remaining + 1) attempt le =
      ((attemptStep cfg secrets attempt (env attempt)).1, .success) := by
  simp only [runFrom]
  rw [h]

/-- Unfolding of one loop iteration whose body classifies as `retry e`:
the loop continues with the next attempt and `last_err = e`. -/
theorem runFrom_step_retry (cfg : Config) (secrets : Secrets) (env : Nat → AttemptOutcome)
    (fm : Bool) (remaining attempt : Nat) (le e : LastErr)
    (h : (attemptStep cfg secrets attempt (env attempt)).2 = .retry e) :
    runFrom cfg secrets env fm (remaining + 1) attempt le =
      ((attemptStep cfg secrets attempt (env attempt)).1
        ++ (runFrom cfg secrets env fm remaining (attempt + 1) e).1,
       (runFrom cfg secrets env fm remaining (attempt + 1) e).2) := by
  simp only [runFrom]
  rw [h]

/-- Unfolding of one loop iteration whose body classifies as
`breakOut e`: the loop stops and reaches the hard-failure tail at once. -/
theorem runFrom_step_break (cfg : Config) (secrets : Secrets) (env : Nat → AttemptOutcome)
    (fm : Bool) (remaining attempt : Nat) (le e : LastErr)
    (h : (attemptStep cfg secrets attempt (env attempt)).2 = .breakOut e) :
    runFrom cfg secrets env fm (remaining + 1) attempt le =
      ((attemptStep cfg secrets attempt (env attempt)).1
        ++ hardFailEvents cfg secrets fm e,
       .systemExit 1) := by
  simp only [runFrom]
  rw [h]

/-- C1 amended: an exception that does not match the transient-disconnect
substring list (and is not a timeout) ends the retry loop immediately at
whatever attempt it occurs: the iteration classifies as `breakOut` and the
loop goes straight to the hard-failure tail (`break` on
src/agent_core.py line 321), regardless of how many attempts remain —
it is not retried up to the attempt budget. -/
theorem nontransient_exception_ends_loop (cfg : Config) (secrets : Secrets)
    (env : Nat → AttemptOutcome) (fm : Bool) (remaining attempt : Nat)
    (le : LastErr) (msg : Str)
    (henv : env attempt = .exc msg) (hfl : infraFlake msg = false) :
    (attemptStep cfg secrets attempt (env attempt)).2 = .breakOut (.excE msg) ∧
    runFrom cfg secrets env fm (remaining + 1) attempt le =
      ((attemptStep cfg secrets attempt (env attempt)).1
        ++ hardFailEvents cfg secrets fm (.excE msg),
       .systemExit 1) := by
  have hv : (attemptStep cfg secrets attempt (env attempt)).2 = .breakOut (.excE msg) := by
    rw [henv]
    simp [attemptStep, hfl]
  exact ⟨hv, runFrom_step_break cfg secrets env fm remaining attempt le _ hv⟩

/-- Witness for the amended C1: the exception `boom` at attempt 1 of a
3-attempt budget breaks out at once. -/
theorem nontransient_exception_ends_loop_witness :
    (attemptStep cfgEx noSecrets 1 (envBoomThenGood 1)).2 = .breakOut (.excE (S "boom")) ∧
    runFrom cfgEx noSecrets envBoomThenGood true (2 + 1) 1 .noneE =
      ((attemptStep cfgEx noSecrets 1 (envBoomThenGood 1)).1
        ++ hardFailEvents cfgEx noSecrets true (.excE (S "boom")),
       .systemExit 1) :=
  nontransient_exception_ends_loop cfgEx noSecrets envBoomThenGood true 2 1 .noneE
    (S "boom") (by decide) (by decide)

/-- C1 counterexample: with `MAX_RUN_RETRIES = 3`, a non-transient,
non-timeout exception (`boom`) at the non-final attempt 1 ends the loop:
the whole trace is the attempt-1 error file plus the failure e-mail (no
second attempt runs, no `run_summary.txt` is ever written) and `main`
hard-fails — even though, as the third conjunct shows, any later attempt
would have succeeded.  The claim that such an exception is retried up to
the attempt budget and does not end the loop is therefore false of the
code. -/
theorem nontransient_exception_retry_counterexample :
    (pyMain cfgEx noSecrets envBoomThenGood true).1 =
      [Event.fileWrite (S "error_attempt_1.txt") (S "boom"),
       Event.mailSent (S "Worker FAILED")
         (S "Worker failed after 3 attempts.\nLast error: boom")] ∧
    (pyMain cfgEx noSecrets envBoomThenGood true).2 = .systemExit 1 ∧
    (pyMain cfgEx noSecrets envGood true).2 = .success := by
  decide

/-- C2 amended: an attempt whose telemetry has `clicks == 0` and
`types == 0` **and whose result text is blank after stripping** is
classified as the no-op soft failure and the loop falls through to the
next attempt (src/agent_core.py lines 291-296); with a non-blank result
text the same counters yield success instead (see the counterexample). -/
theorem noop_run_retried (cfg : Config) (secrets : Secrets)
    (env : Nat → AttemptOutcome) (fm : Bool) (remaining attempt : Nat) (le : LastErr)
    (stats : Stats) (result : Str) (mailErr : Option Str) (hasAuth exportOk : Bool)
    (henv : env attempt = .ok stats result mailErr hasAuth exportOk)
    (hc : stats.clicks = 0) (ht : stats.types = 0) (hr : pyStrip result = []) :
    (attemptStep cfg secrets attempt (env attempt)).2 = .retry .noop ∧
    runFrom cfg secrets env fm (remaining + 1) attempt le =
      ((attemptStep cfg secrets attempt (env attempt)).1
        ++ (runFrom cfg secrets env fm remaining (attempt + 1) .noop).1,
       (runFrom cfg secrets env fm remaining (attempt + 1) .noop).2) := by
  have hv : (attemptStep cfg secrets attempt (env attempt)).2 = .retry .noop := by
    rw [henv]
    simp [attemptStep, hc, ht, hr]
  exact ⟨hv, runFrom_step_retry cfg secrets env fm remaining attempt le _ hv⟩

/-- Witness for the amended C2: a zero-action, empty-result attempt at
attempt 1 of the 3-attempt budget is classified no-op and the loop
continues with attempt 2. -/
theorem noop_run_retried_witness :
    (attemptStep cfgEx noSecrets 1 (envNoop 1)).2 = .retry .noop ∧
    runFrom cfgEx noSecrets envNoop true (2 + 1) 1 .noneE =
      ((attemptStep cfgEx noSecrets 1 (envNoop 1)).1
        ++ (runFrom cfgEx noSecrets envNoop true 2 (1 + 1) .noop).1,
       (runFrom cfgEx noSecrets envNoop true 2 (1 + 1) .noop).2) :=
  noop_run_retried cfgEx noSecrets envNoop true 2 1 .noneE zeroStats (S "") none false false
    (by decide) (by decide) (by decide) (by decide)

/-- C2 counterexample: a completed run with `clicks == 0` and
`types == 0` but a non-blank result text (`done`) is **not** classified
no-op: line 291 of src/agent_core.py also accepts `result.strip()`, so
the attempt returns success and is not retried.  The claim, which demands
a retry for every run with zero clicks and zero types, is therefore
false of the code. -/
theorem noop_claim_counterexample :
    zeroStats.clicks = 0 ∧ zeroStats.types = 0 ∧
    (attemptStep cfgEx noSecrets 1 (.ok zeroStats (S "done") none false false)).2 = .done ∧
    (pyMain cfgEx noSecrets (fun _ => .ok zeroStats (S "done") none false false) true).2 =
      .success := by
  decide

/-- When the attempts `attempt, …, attempt + remaining` all classify as
a retry recording the error `errOf k` at attempt `k`, the loop exhausts
its budget, reaches the hard-failure tail with `SystemExit(1)`, and the
trace contains the `Worker FAILED` mail carrying the redacted
stringification of exactly the error recorded by the **final** attempt,
`errOf (attempt + remaining)` — the value `last_err` holds when line 325
of src/agent_core.py formats the failure mail. -/
theorem runFrom_exhausts (cfg : Config) (secrets : Secrets)
    (env : Nat → AttemptOutcome) (errOf : Nat → LastErr) :
    ∀ (remaining attempt : Nat) (le : LastErr),
      (∀ k, attempt ≤ k → k ≤ attempt + remaining →
        (attemptStep cfg secrets k (env k)).2 = .retry (errOf k)) →
      (runFrom cfg secrets env true (remaining + 1) attempt le).2 = .systemExit 1 ∧
      Event.mailSent (S "Worker FAILED")
          (S "Worker failed after " ++ N cfg.maxRunRetries
            ++ S " attempts.\nLast error: "
            ++ redact_secrets secrets (lastErrStr (errOf (attempt + remaining))))
        ∈ (runFrom cfg secrets env true (remaining + 1) attempt le).1 := by
  intro remaining
  induction remaining with
  | zero =>
      intro attempt le h
      have hv := h attempt (Nat.le_refl attempt) (by omega)
      have hstep := runFrom_step_retry cfg secrets env true 0 attempt le (errOf attempt) hv
      rw [hstep]
      constructor
      · simp [runFrom]
      · simp [runFrom, hardFailEvents]
  | succ n ih =>
      intro attempt le h
      have hv := h attempt (Nat.le_refl attempt) (by omega)
      have hrest := ih (attempt + 1) (errOf attempt)
        (fun k h1 h2 => h k (by omega) (by omega))
      have hidx : attempt + 1 + n = attempt + (n + 1) := by omega
      rw [hidx] at hrest
      have hstep := runFrom_step_retry cfg secrets env true (n + 1) attempt le (errOf attempt) hv
      rw [hstep]
      exact ⟨hrest.1, List.mem_append_right _ hrest.2⟩

/-- C3 amended: when all `MAX_RUN_RETRIES` attempts are exhausted without
success (attempt `k` classifies as a retry recording the error
`errOf k`), the controller stops retrying and surfaces exactly the last
recorded error — the one of the final attempt, `errOf MAX_RUN_RETRIES` —
redacted inside the best-effort `Worker FAILED` e-mail body, then
terminates by raising `SystemExit(1)` (src/agent_core.py lines 323-331):
it does not retry further and does not exit silently, but it also does
not re-raise the last recorded error itself (see the counterexample). -/
theorem exhaustion_surfaces_last_error (cfg : Config) (secrets : Secrets)
    (env : Nat → AttemptOutcome) (errOf : Nat → LastErr)
    (hpos : 1 ≤ cfg.maxRunRetries)
    (h : ∀ k, 1 ≤ k → k ≤ cfg.maxRunRetries →
      (attemptStep cfg secrets k (env k)).2 = .retry (errOf k)) :
    (pyMain cfg secrets env true).2 = .systemExit 1 ∧
    Event.mailSent (S "Worker FAILED")
        (S "Worker failed after " ++ N cfg.maxRunRetries
          ++ S " attempts.\nLast error: "
          ++ redact_secrets secrets (lastErrStr (errOf cfg.maxRunRetries)))
      ∈ (pyMain cfg secrets env true).1 := by
  obtain ⟨m, hm⟩ : ∃ m, cfg.maxRunRetries = m + 1 :=
    ⟨cfg.maxRunRetries - 1, by omega⟩
  have hx := runFrom_exhausts cfg secrets env errOf m 1 .noneE
    (fun k h1 h2 => h k h1 (by omega))
  have hidx : (1 : Nat) + m = cfg.maxRunRetries := by omega
  rw [hidx] at hx
  have hpm : pyMain cfg secrets env true =
      runFrom cfg secrets env true (m + 1) 1 .noneE := by
    simp only [pyMain, hm]
  rw [hpm]
  exact hx

/-- Witness for the amended C3: three no-op attempts exhaust the budget;
the run ends in `SystemExit(1)` and the failure mail carries the no-op
error recorded by the final attempt. -/
theorem exhaustion_surfaces_last_error_witness :
    (pyMain cfgEx noSecrets envNoop true).2 = .systemExit 1 ∧
    Event.mailSent (S "Worker FAILED")
        (S "Worker failed after " ++ N cfgEx.maxRunRetries
          ++ S " attempts.\nLast error: "
          ++ redact_secrets noSecrets (lastErrStr .noop))
      ∈ (pyMain cfgEx noSecrets envNoop true).1 :=
  exhaustion_surfaces_last_error cfgEx noSecrets envNoop (fun _ => .noop)
    (by decide)
    (by intro k h1 h2; have h3 : k ≤ 3 := h2; interval_cases k <;> decide)

/-- C3 counterexample: after exhausting all attempts (three no-op runs),
`main` terminates with `raise SystemExit(1)` (src/agent_core.py
line 331): the termination is not a re-raise of the last recorded error —
the last error reaches the outside only inside the failure-mail body.
The claim that `main` raises the last recorded error is therefore false
of the code. -/
theorem exhaustion_raise_counterexample :
    (pyMain cfgEx noSecrets envNoop true).2 = .systemExit 1 ∧
    ∀ e, (pyMain cfgEx noSecrets envNoop true).2 ≠ .raised e := by
  constructor
  · decide
  · intro e hc
    have h2 : (pyMain cfgEx noSecrets envNoop true).2 = .systemExit 1 := by decide
    rw [hc] at h2
    exact RunOutcome.noConfusion h2

/-- C7: the delay schedule is linear in the attempt count.  Every sleep
an iteration of the retry loop can emit is exactly
`RETRY_BACKOFF_SECONDS * attempt` seconds; every iteration that
classifies as a retry (no-op, timeout, or transient error with attempts
remaining) ends with exactly that sleep before the next attempt; and the
hard-failure tail never sleeps (src/agent_core.py lines 296, 301,
319). -/
theorem retry_backoff_linear (cfg : Config) (secrets : Secrets) (attempt : Nat)
    (out : AttemptOutcome) :
    (∀ s, Event.slept s ∈ (attemptStep cfg secrets attempt out).1 →
      s = cfg.retryBackoffSeconds * attempt) ∧
    (∀ e, (attemptStep cfg secrets attempt out).2 = .retry e →
      (attemptStep cfg secrets attempt out).1.getLast? =
        some (.slept (cfg.retryBackoffSeconds * attempt))) ∧
    (∀ fm e s, Event.slept s ∉ hardFailEvents cfg secrets fm e) := by
  refine ⟨?_, ?_, ?_⟩
  · intro s hs
    cases out with
    | ok stats result mailErr hasAuth exportOk =>
        by_cases hcl : stats.clicks > 0 ∨ stats.types > 0 ∨ pyStrip result ≠ [] <;>
          rcases mailErr with _ | e <;>
          simp [attemptStep, hcl] at hs <;> exact hs
    | timeout =>
        simp [attemptStep] at hs
        exact hs
    | exc msg =>
        by_cases hfl : attempt < cfg.maxRunRetries ∧ infraFlake msg = true
        · simp [attemptStep, hfl] at hs
          exact hs
        · simp [attemptStep, hfl] at hs
  · intro e he
    cases out with
    | ok stats result mailErr hasAuth exportOk =>
        by_cases hcl : stats.clicks > 0 ∨ stats.types > 0 ∨ pyStrip result ≠ [] <;>
          rcases mailErr with _ | e2 <;>
          simp [attemptStep, hcl, List.getLast?_concat] at he ⊢
    | timeout =>
        simp [attemptStep]
    | exc msg =>
        by_cases hfl : attempt < cfg.maxRunRetries ∧ infraFlake msg = true <;>
          simp [attemptStep, hfl, List.getLast?_concat] at he ⊢
  · intro fm e s hmem
    cases fm <;> simp [hardFailEvents] at hmem

/-- Witness for C7 at a concrete input: a timeout at attempt 2 with
`RETRY_BACKOFF_SECONDS = 4` sleeps exactly 8 seconds, as the last event
of the iteration, and the concrete hard-failure tail contains no sleep. -/
theorem retry_backoff_linear_witness :
    8 = cfgEx.retryBackoffSeconds * 2 ∧
    (attemptStep cfgEx noSecrets 2 .timeout).1.getLast? =
      some (.slept (cfgEx.retryBackoffSeconds * 2)) ∧
    Event.slept 8 ∉ hardFailEvents cfgEx noSecrets true .noop :=
  ⟨by decide,
   (retry_backoff_linear cfgEx noSecrets 2 .timeout).2.1
     (.timeoutE cfgEx.runTimeoutSeconds 2) (by decide),
   (retry_backoff_linear cfgEx noSecrets 2 .timeout).2.2 true .noop 8⟩

/-- C5 amended: a failure of the telemetry e-mail send never propagates
out of `main` and leaves the iteration's verdict (and hence the run's
outcome) unchanged; but the failure is recorded by writing the file
`mail_error.txt` (src/agent_core.py lines 284-288), not by printing to
standard output — the loop body emits no standard-output event at all —
and a failure of the final `Worker FAILED` mail is swallowed with no
record whatsoever (lines 326-329). -/
theorem mail_failure_swallowed (cfg : Config) (secrets : Secrets) (attempt : Nat)
    (stats : Stats) (result : Str) (hasAuth exportOk : Bool) (e : Str) :
    (attemptStep cfg secrets attempt (.ok stats result (some e) hasAuth exportOk)).2 =
      (attemptStep cfg secrets attempt (.ok stats result none hasAuth exportOk)).2 ∧
    Event.fileWrite (S "mail_error.txt") e ∈
      (attemptStep cfg secrets attempt (.ok stats result (some e) hasAuth exportOk)).1 ∧
    (∀ s, Event.printed s ∉
      (attemptStep cfg secrets attempt (.ok stats result (some e) hasAuth exportOk)).1) ∧
    (∀ le, hardFailEvents cfg secrets false le = []) := by
  by_cases hcl : stats.clicks > 0 ∨ stats.types > 0 ∨ pyStrip result ≠ []
  · refine ⟨?_, ?_, ?_, ?_⟩
    · simp [attemptStep, hcl]
    · simp [attemptStep, hcl]
    · intro s
      simp [attemptStep, hcl]
    · intro le
      simp [hardFailEvents]
  · refine ⟨?_, ?_, ?_, ?_⟩
    · simp [attemptStep, hcl]
    · simp [attemptStep, hcl]
    · intro s
      simp [attemptStep, hcl]
    · intro le
      simp [hardFailEvents]

/-- Witness for the amended C5 at a concrete input. -/
theorem mail_failure_swallowed_witness :
    (attemptStep cfgEx noSecrets 1 (.ok zeroStats (S "x") (some (S "smtp down")) false false)).2 =
      (attemptStep cfgEx noSecrets 1 (.ok zeroStats (S "x") none false false)).2 ∧
    Event.fileWrite (S "mail_error.txt") (S "smtp down") ∈
      (attemptStep cfgEx noSecrets 1 (.ok zeroStats (S "x") (some (S "smtp down")) false false)).1 ∧
    Event.printed (S "anything") ∉
      (attemptStep cfgEx noSecrets 1 (.ok zeroStats (S "x") (some (S "smtp down")) false false)).1 ∧
    hardFailEvents cfgEx noSecrets false .noop = [] :=
  ⟨(mail_failure_swallowed cfgEx noSecrets 1 zeroStats (S "x") false false (S "smtp down")).1,
   (mail_failure_swallowed cfgEx noSecrets 1 zeroStats (S "x") false false (S "smtp down")).2.1,
   (mail_failure_swallowed cfgEx noSecrets 1 zeroStats (S "x") false false (S "smtp down")).2.2.1
     (S "anything"),
   (mail_failure_swallowed cfgEx noSecrets 1 zeroStats (S "x") false false (S "smtp down")).2.2.2
     .noop⟩

set_option maxRecDepth 8192 in
/-- C5 counterexample: in a concrete run whose mail send raises
`smtp down`, the failure is swallowed (the run still returns success) but
it is logged by writing the file `mail_error.txt`; the trace contains no
standard-output event at all.  The claim that the failure is logged only
to standard output is therefore false of the code. -/
theorem mail_failure_stdout_counterexample :
    Event.fileWrite (S "mail_error.txt") (S "smtp down") ∈
      (pyMain cfgEx noSecrets envMailFail true).1 ∧
    (∀ s, Event.printed s ∉ (pyMain cfgEx noSecrets envMailFail true).1) ∧
    (pyMain cfgEx noSecrets envMailFail true).2 = .success := by
  refine ⟨by decide, ?_, by decide⟩
  intro s hmem
  have htr : (pyMain cfgEx noSecrets envMailFail true).1 =
      [Event.fileWrite (S "run_summary.txt")
         (summaryJson 1 zeroStats (redact_secrets noSecrets (S "x")) false),
       Event.fileWrite (S "mail_error.txt") (S "smtp down")] := by decide
  rw [htr] at hmem
  simp at hmem

/-- C6 amended: the advice and social-post files are newline-terminated —
`agent_social.main` writes `text.strip() + "\n"` for both
(src/agent_social.py lines 220-224) — but the artifacts written through
`write_text` are written verbatim with no newline appended: in
particular the JSON run report / telemetry summary in `run_summary.txt`
always ends with the closing brace of `json.dumps` (see the
counterexample). -/
theorem social_artifacts_newline_terminated (now : Str) (rx : RegexOracle)
    (fs : Str → Option Str) (worker_log_path skill_path : Str) :
    (∃ a p, social_main now rx fs worker_log_path skill_path =
      [Event.fileWrite (S "advice.md") (socialFileText a),
       Event.fileWrite (S "social_post.md") (socialFileText p),
       Event.printed (S "Wrote advice.md and social_post.md")]) ∧
    (∀ s, (socialFileText s).getLast? = some '\n') ∧
    (∀ (a : Nat) (st : Stats) (r : Str) (hb : Bool),
      (summaryJson a st r hb).getLast? = some rbChar) := by
  refine ⟨?_, ?_, ?_⟩
  · exact ⟨_, _, rfl⟩
  · intro s
    exact List.getLast?_concat _
  · intro a st r hb
    exact List.getLast?_concat _

set_option maxRecDepth 8192 in
/-- C6 counterexample: the telemetry summary written to
`run_summary.txt` by `write_text` in a concrete run ends with the closing
brace, not with a newline — `write_text` writes the `json.dumps` output
verbatim (src/agent_core.py lines 45-47 and 262).  The claim that every
file artifact the program writes is newline-terminated is therefore false
of the code. -/
theorem run_summary_not_newline_terminated :
    Event.fileWrite (S "run_summary.txt")
        (summaryJson 1 zeroStats (redact_secrets noSecrets (S "")) false) ∈
      (pyMain cfg1 noSecrets envNoop true).1 ∧
    (summaryJson 1 zeroStats (redact_secrets noSecrets (S "")) false).getLast? ≠
      some '\n' := by
  refine ⟨by decide, by decide⟩

/-- A star-free non-empty text that is no infix of `l` is no infix of
`'*' :: l` either. -/
theorem notInfixConsStar {u : Str} (l : Str) (hstar : '*' ∉ u) (hne : u ≠ [])
    (h : ¬ u <:+: l) : ¬ u <:+: ('*' :: l) := by
  intro hc
  rcases List.infix_cons_iff.mp hc with hp | hi
  · cases u with
    | nil => exact hne rfl
    | cons a u2 =>
        obtain ⟨ha, -⟩ := List.cons_prefix_cons.mp hp
        subst ha
        exact hstar (List.mem_cons_self _ _)
  · exact h hi

/-- A star-free prefix of the output of `replaceAllF` with replacement
`stars` is already a prefix of the input text. -/
theorem replaceAllF_pre_transfer (v : Str) :
    ∀ (fuel : Nat) (s u : Str), '*' ∉ u →
      u <+: replaceAllF v stars fuel s → u <+: s := by
  intro fuel
  induction fuel with
  | zero =>
      intro s u _ h
      simpa [replaceAllF] using h
  | succ n ih =>
      intro s u hstar h
      simp only [replaceAllF] at h
      by_cases hc : v ≠ [] ∧ v.isPrefixOf s
      · rw [if_pos hc] at h
        have hcons : stars ++ replaceAllF v stars n (s.drop v.length) =
            '*' :: '*' :: '*' :: replaceAllF v stars n (s.drop v.length) := rfl
        rw [hcons] at h
        cases u with
        | nil => exact ⟨s, rfl⟩
        | cons a u2 =>
            obtain ⟨ha, -⟩ := List.cons_prefix_cons.mp h
            subst ha
            exact absurd (List.mem_cons_self _ _) hstar
      · rw [if_neg hc] at h
        cases s with
        | nil =>
            have := List.prefix_nil.mp h
            subst this
            exact ⟨[], rfl⟩
        | cons c rest =>
            cases u with
            | nil => exact ⟨c :: rest, rfl⟩
            | cons a u2 =>
                obtain ⟨ha, h2⟩ := List.cons_prefix_cons.mp h
                have h3 := ih rest u2 (fun hm => hstar (List.mem_cons_of_mem a hm)) h2
                exact List.cons_prefix_cons.mpr ⟨ha, h3⟩

/-- Replacing by `stars` creates no new occurrence of a star-free text:
if `u` is star-free and not an infix of `s`, it is not an infix of the
replacement output either. -/
theorem replaceAllF_no_new (v : Str) :
    ∀ (fuel : Nat) (s u : Str), '*' ∉ u → ¬ u <:+: s →
      ¬ u <:+: replaceAllF v stars fuel s := by
  intro fuel
  induction fuel with
  | zero =>
      intro s u _ h
      simpa [replaceAllF] using h
  | succ n ih =>
      intro s u hstar h
      have hne : u ≠ [] := fun he => h (he ▸ nilInfixOf s)
      simp only [replaceAllF]
      by_cases hc : v ≠ [] ∧ v.isPrefixOf s
      · rw [if_pos hc]
        have hdrop : ¬ u <:+: s.drop v.length :=
          fun hh => h (hh.trans (infixOfSuf (List.drop_suffix _ _)))
        have hR := ih (s.drop v.length) u hstar hdrop
        have h3 := notInfixConsStar _ hstar hne hR
        have h2 := notInfixConsStar _ hstar hne h3
        have h1 := notInfixConsStar _ hstar hne h2
        have hcons : stars ++ replaceAllF v stars n (s.drop v.length) =
            '*' :: '*' :: '*' :: replaceAllF v stars n (s.drop v.length) := rfl
        rw [hcons]
        exact h1
      · rw [if_neg hc]
        cases s with
        | nil =>
            intro hh
            exact hne (infixNilEq hh)
        | cons c rest =>
            have hrest : ¬ u <:+: rest := fun hh => h (List.infix_cons hh)
            have hR := ih rest u hstar hrest
            intro hh
            rcases List.infix_cons_iff.mp hh with hp | hi
            · cases u with
              | nil => exact hne rfl
              | cons a u2 =>
                  obtain ⟨ha, h2⟩ := List.cons_prefix_cons.mp hp
                  have h3 := replaceAllF_pre_transfer v n rest u2
                    (fun hm => hstar (List.mem_cons_of_mem a hm)) h2
                  exact h (infixOfPre (List.cons_prefix_cons.mpr ⟨ha, h3⟩))
            · exact hR hi

/-- Replacing a star-free non-empty pattern by `stars` removes every
occurrence of the pattern, when the fuel covers the text length (as it
does in `replaceAll`). -/
theorem replaceAllF_kills (v : Str) (hv : v ≠ []) (hstar : '*' ∉ v) :
    ∀ (fuel : Nat) (s : Str), s.length ≤ fuel →
      ¬ v <:+: replaceAllF v stars fuel s := by
  intro fuel
  induction fuel with
  | zero =>
      intro s hlen
      have hs : s = [] := List.length_eq_zero.mp (Nat.le_zero.mp hlen)
      subst hs
      simp only [replaceAllF]
      intro hh
      exact hv (infixNilEq hh)
  | succ n ih =>
      intro s hlen
      simp only [replaceAllF]
      by_cases hc : v ≠ [] ∧ v.isPrefixOf s
      · rw [if_pos hc]
        have hvp : v <+: s := List.isPrefixOf_iff_prefix.mp hc.2
        have hlv : 1 ≤ v.length := by
          cases v with
          | nil => exact absurd rfl hv
          | cons a t => simp
        have hdl : (s.drop v.length).length ≤ n := by
          rw [List.length_drop]
          have := hvp.length_le
          omega
        have hR := ih (s.drop v.length) hdl
        have h3 := notInfixConsStar _ hstar hv hR
        have h2 := notInfixConsStar _ hstar hv h3
        have h1 := notInfixConsStar _ hstar hv h2
        have hcons : stars ++ replaceAllF v stars n (s.drop v.length) =
            '*' :: '*' :: '*' :: replaceAllF v stars n (s.drop v.length) := rfl
        rw [hcons]
        exact h1
      · rw [if_neg hc]
        have hnp : ¬ v.isPrefixOf s := fun hp => hc ⟨hv, hp⟩
        cases s with
        | nil =>
            intro hh
            exact hv (infixNilEq hh)
        | cons c rest =>
            have hrl : rest.length ≤ n := by
              simp only [List.length_cons] at hlen
              omega
            have hR := ih rest hrl
            intro hh
            rcases List.infix_cons_iff.mp hh with hp | hi
            · cases v with
              | nil => exact hv rfl
              | cons a v2 =>
                  obtain ⟨ha, h2⟩ := List.cons_prefix_cons.mp hp
                  have h3 := replaceAllF_pre_transfer (a :: v2) n rest v2
                    (fun hm => hstar (List.mem_cons_of_mem a hm)) h2
                  exact hnp (List.isPrefixOf_iff_prefix.mpr
                    (List.cons_prefix_cons.mpr ⟨ha, h3⟩))
            · exact hR hi

/-- The redaction fold preserves the absence of a star-free text: once a
text no longer occurs, no later replacement re-introduces it. -/
theorem redact_preserves (u : Str) (hstar : '*' ∉ u) :
    ∀ (env : Secrets) (t : Str), ¬ u <:+: t → ¬ u <:+: redact_secrets env t := by
  intro env
  induction env with
  | nil =>
      intro t h
      simpa [redact_secrets] using h
  | cons o rest ih =>
      intro t h
      have hstep : ¬ u <:+: redactStep t o := by
        cases o with
        | none => simpa [redactStep] using h
        | some v =>
            by_cases hv : v = []
            · simpa [redactStep, hv] using h
            · simp only [redactStep, if_neg hv]
              exact replaceAllF_no_new v t.length t u hstar h
      have := ih (redactStep t o) hstep
      simpa [redact_secrets] using this

/-- C10 amended: for every input text, the output of `redact_secrets`
contains no occurrence of any secret value that is set (and non-empty,
matching the `if v:` guard), **provided no set secret value contains the
replacement character `*`**.  Without that proviso the claim fails: a
later replacement by `***` can materialise an earlier star-containing
secret (see the counterexample). -/
theorem redact_removes_star_free_secrets :
    ∀ (env : Secrets) (text v : Str), some v ∈ env → v ≠ [] →
      (∀ u, some u ∈ env → '*' ∉ u) →
      ¬ v <:+: redact_secrets env text := by
  intro env
  induction env with
  | nil =>
      intro text v hv
      simp at hv
  | cons o rest ih =>
      intro text v hv hne hstar
      have hvstar : '*' ∉ v := hstar v hv
      rcases List.mem_cons.mp hv with ho | hr
      · have hkill : ¬ v <:+: redactStep text o := by
          rw [← ho]
          simp only [redactStep, if_neg hne]
          exact replaceAllF_kills v hne hvstar text.length text (Nat.le_refl _)
        have := redact_preserves v hvstar rest (redactStep text o) hkill
        simpa [redact_secrets] using this
      · have := ih (redactStep text o) v hr hne
          (fun u hu => hstar u (List.mem_cons_of_mem o hu))
        simpa [redact_secrets] using this

/-- Witness for the amended C10: with only `TARGET_USER = "pw"` set, the
redacted text contains no occurrence of `pw`. -/
theorem redact_removes_star_free_secrets_witness :
    ¬ S "pw" <:+: redact_secrets [some (S "pw"), none, none, none, none] (S "my pw here") :=
  redact_removes_star_free_secrets [some (S "pw"), none, none, none, none]
    (S "my pw here") (S "pw") (by decide) (by decide)
    (by
      intro u hu
      simp at hu
      subst hu
      decide)

/-- C10 counterexample: with `TARGET_USER = "**"` and `TARGET_PW = "p"`
both set in the environment, redacting the text `p` yields `***`, which
contains the set secret `**` — the sequential `str.replace` passes of
src/agent_core.py lines 52-55 can materialise a secret that contains the
replacement character.  The claim that the output never contains any set
secret value is therefore false of the code. -/
theorem redact_leaks_counterexample :
    S "**" <:+: redact_secrets [some (S "**"), some (S "p"), none, none, none] (S "p") ∧
    redact_secrets [some (S "**"), some (S "p"), none, none, none] (S "p") = S "***" := by
  refine ⟨by decide, by decide⟩
